import Mathlib

/-!
Shallow embedding of the Holi 2025 registration workflow
(src/app/register/page.tsx): form validation, uniqueness check,
pass-number assignment and submission against the record store.
The store ("registrations" in the hosted database) is modelled as a
list of records in key order; `push` appends, `get` reads all.
-/

namespace Holi

/-- A registrant record as written to the store by `onSubmit`:
the spread of the form data plus the derived fields
price, passNumber, paymentStatus, registrationDate. -/
structure Registrant where
  firstName : String
  lastName : String
  email : String
  phone : String
  gender : String
  price : Nat
  passNumber : String
  paymentStatus : String
  registrationDate : String
deriving Repr, DecidableEq

/-- The form data object handed to `onSubmit` (the `useForm` fields,
in `defaultValues` order). -/
structure FormData where
  firstName : String
  lastName : String
  email : String
  phone : String
  gender : String
deriving Repr, DecidableEq

/-- `const price = gender === "male" ? 599 : gender === "female" ? 499 : 0`. -/
def price (gender : String) : Nat :=
  if gender = "male" then 599 else if gender = "female" then 499 else 0

/-- `generatePassNumber`: reads the whole collection; `data` is null for an
empty store (then 1), otherwise the key count plus one; returns
`"HOLI-2025" + nextPassNumber`. -/
def generatePassNumber (store : List Registrant) : String :=
  let nextPassNumber := if store.isEmpty then 1 else store.length + 1
  "HOLI-2025" ++ toString nextPassNumber

/-- `isEmailOrPhoneUnique`: scans every stored record in key order; for each
record the email is compared first, then the phone, returning at the first
match; `null` (here `none`) when nothing matches. -/
def isEmailOrPhoneUnique (store : List Registrant) (email phone : String) :
    Option String :=
  match store with
  | [] => none
  | user :: rest =>
    if user.email = email then some "email"
    else if user.phone = phone then some "phone"
    else isEmailOrPhoneUnique rest email phone

/-- The duplicate-field message built in `onSubmit`:
capitalised field name, then the fixed sentence. -/
def dupMessage (field : String) : String :=
  field.capitalize ++ " already exists. Please use a different " ++ field ++ "."

/-- The record assembled in `onSubmit` (`registrationData`): the spread of the
form data, the gender-derived price, the generated pass number, payment
status "unpaid" and the submission timestamp. -/
def mkRegistration (data : FormData) (store : List Registrant) (now : String) :
    Registrant :=
  { firstName := data.firstName
    lastName := data.lastName
    email := data.email
    phone := data.phone
    gender := data.gender
    price := price data.gender
    passNumber := generatePassNumber store
    paymentStatus := "unpaid"
    registrationDate := now }

/-- The component state touched by a submission: the global error banner,
the success dialog and its contents, the loading flag, and the per-field
errors kept by the form library. -/
structure UIState where
  globalError : Option String := none
  showDialog : Bool := false
  passNumber : String := ""
  email : String := ""
  isLoading : Bool := false
  firstNameError : Option String := none
  emailError : Option String := none
  phoneError : Option String := none
deriving Repr, DecidableEq

/-- `/^\S+@\S+$/i` on the email field: every character non-whitespace and an
`@` somewhere strictly inside the string. -/
def emailPatternOk (s : String) : Bool :=
  s.toList.all (fun c => !c.isWhitespace) &&
    decide ('@' ∈ (s.toList.drop 1).dropLast)

/-- `/^[0-9]{10}$/` on the phone field: exactly ten characters, all digits. -/
def phonePatternOk (s : String) : Bool :=
  decide (s.length = 10) && s.toList.all Char.isDigit

/-- The field-level validation run by the form library before `onSubmit`:
firstName is required; email is required and must match the email pattern;
phone is required and must match the ten-digit pattern. Each component is
the error message attached to that field, or `none`. -/
def formValidate (data : FormData) :
    Option String × Option String × Option String :=
  ( if data.firstName = "" then some "First name is required" else none
  , if data.email = "" then some "Email is required"
    else if emailPatternOk data.email then none else some "Invalid email address"
  , if data.phone = "" then some "Phone number is required"
    else if phonePatternOk data.phone then none
    else some "Phone number must be exactly 10 digits." )

/-- Whether field validation found any error (so `onSubmit` is not called). -/
def hasFormErrors (data : FormData) : Bool :=
  (formValidate data).1.isSome || (formValidate data).2.1.isSome ||
    (formValidate data).2.2.isSome

/-- `onSubmit`: clears the email/phone errors and the banner, sets loading;
rejects a phone whose length is not 10; rejects a duplicate email or phone
with a field error; otherwise generates the pass number, builds the record
and pushes it (`writeOk` tells whether the single store write succeeds):
on success it fills and shows the dialog, on failure it sets the banner and
leaves the store untouched. Returns the final UI state and store. -/
def onSubmit (data : FormData) (store : List Registrant) (writeOk : Bool)
    (now : String) (ui : UIState) : UIState × List Registrant :=
  let ui0 := { ui with emailError := none, phoneError := none,
                       globalError := none, isLoading := true }
  if data.phone.length ≠ 10 then
    ({ ui0 with phoneError := some "Phone number must be exactly 10 digits.",
                isLoading := false }, store)
  else
    match isEmailOrPhoneUnique store data.email data.phone with
    | some f =>
      let ui1 :=
        if f = "email" then { ui0 with emailError := some (dupMessage f) }
        else if f = "phone" then { ui0 with phoneError := some (dupMessage f) }
        else ui0
      ({ ui1 with isLoading := false }, store)
    | none =>
      let pass := generatePassNumber store
      let reg := mkRegistration data store now
      if writeOk then
        ({ ui0 with passNumber := pass, email := data.email,
                    showDialog := true, isLoading := false }, store ++ [reg])
      else
        let banner := "Error: Something went wrong. Please try again."
        ({ ui0 with globalError := some banner, isLoading := false }, store)

/-- `handleSubmit(onSubmit)`: runs field validation; on any error it attaches
the field messages and never calls `onSubmit`; on success it clears the
field errors and runs `onSubmit`. -/
def submit (data : FormData) (store : List Registrant) (writeOk : Bool)
    (now : String) (ui : UIState) : UIState × List Registrant :=
  if hasFormErrors data then
    ({ ui with firstNameError := (formValidate data).1,
               emailError := (formValidate data).2.1,
               phoneError := (formValidate data).2.2 }, store)
  else
    onSubmit data store writeOk now
      { ui with firstNameError := none, emailError := none, phoneError := none }

/-- What the user types into the five visible inputs. -/
structure TypedInput where
  firstName : String
  lastName : String
  email : String
  phone : String
  gender : String
deriving Repr, DecidableEq

/-- Only inputs wired through `register(...)` (or `setValue` for gender)
reach the form state; the lastName input is rendered without `register`,
so the form keeps its default value `""` whatever was typed. -/
def collectFormData (t : TypedInput) : FormData :=
  { firstName := t.firstName
    lastName := ""
    email := t.email
    phone := t.phone
    gender := t.gender }

/-- The store invariant the workflow maintains: emails pairwise distinct and
phones pairwise distinct across records. -/
def storeInvariant (store : List Registrant) : Prop :=
  store.Pairwise (fun a b => a.email ≠ b.email ∧ a.phone ≠ b.phone)

/-- The end-to-end example input of the spec. -/
def exInput : TypedInput :=
  ⟨"A", "B", "a@b.com", "1234567890", "female"⟩

/-- A stored record with email x@y.com and phone 1234567890. -/
def exRec1 : Registrant :=
  ⟨"X", "", "x@y.com", "1234567890", "male", 599, "HOLI-20251", "unpaid", "T0"⟩

/-- A stored record with email a@b.com and phone 0000000000. -/
def exRec2 : Registrant :=
  ⟨"Y", "", "a@b.com", "0000000000", "female", 499, "HOLI-20252", "unpaid", "T0"⟩

/-- A stored record with email z@z.com and phone 1111111111. -/
def exRec3 : Registrant :=
  ⟨"Z", "", "z@z.com", "1111111111", "male", 599, "HOLI-20253", "unpaid", "T0"⟩

/-- A store holding three records with pairwise distinct emails and phones. -/
def exStore3 : List Registrant := [exRec1, exRec2, exRec3]

/-- Fresh valid form data matching no stored record. -/
def exFresh : FormData := ⟨"C", "", "c@c.com", "2222222222", "male"⟩

/-- Form data whose email duplicates exRec2 and whose phone duplicates
exRec1. -/
def exBothDup : FormData := ⟨"A", "", "a@b.com", "1234567890", "female"⟩

/-- A record sharing its phone with exRec1 but with email a@b.com. -/
def exRecSharedPhone : Registrant :=
  ⟨"Y", "", "a@b.com", "1234567890", "female", 499, "P2", "unpaid", "T0"⟩

/-- A store in which two records share the phone 1234567890. -/
def exStoreSharedPhone : List Registrant := [exRec1, exRecSharedPhone]

/-- Form data with a malformed email (no @) and a 3-character phone. -/
def exBadData : FormData := ⟨"A", "", "noat", "123", "male"⟩

end Holi

namespace Holi

theorem isUnique_none_iff (store : List Registrant) (e p : String) :
    isEmailOrPhoneUnique store e p = none ↔
      ∀ r ∈ store, r.email ≠ e ∧ r.phone ≠ p := by
  induction store with
  | nil => simp [isEmailOrPhoneUnique]
  | cons u rest ih =>
    by_cases h1 : u.email = e
    · simp [isEmailOrPhoneUnique, h1]
    · by_cases h2 : u.phone = p
      · simp [isEmailOrPhoneUnique, h1, h2]
      · simp [isEmailOrPhoneUnique, h1, h2, ih]

theorem isUnique_some_cases (store : List Registrant) (e p f : String)
    (h : isEmailOrPhoneUnique store e p = some f) :
    f = "email" ∨ f = "phone" := by
  induction store with
  | nil => simp [isEmailOrPhoneUnique] at h
  | cons u rest ih =>
    by_cases h1 : u.email = e
    · simp [isEmailOrPhoneUnique, h1] at h
      exact Or.inl h.symm
    · by_cases h2 : u.phone = p
      · simp [isEmailOrPhoneUnique, h1, h2] at h
        exact Or.inr h.symm
      · simp [isEmailOrPhoneUnique, h1, h2] at h
        exact ih h

theorem isUnique_email_first (store : List Registrant) (e p : String)
    (he : ∃ r ∈ store, r.email = e) (hp : ∀ r ∈ store, r.phone ≠ p) :
    isEmailOrPhoneUnique store e p = some "email" := by
  induction store with
  | nil => simp at he
  | cons u rest ih =>
    by_cases h1 : u.email = e
    · simp [isEmailOrPhoneUnique, h1]
    · have h2 : u.phone ≠ p := hp u (List.mem_cons_self u rest)
      rcases he with ⟨r, hr, hre⟩
      rcases List.mem_cons.mp hr with rfl | hr
      · exact absurd hre h1
      · simp only [isEmailOrPhoneUnique, if_neg h1, if_neg h2]
        exact ih ⟨r, hr, hre⟩ (fun s hs => hp s (List.mem_cons_of_mem u hs))

theorem isUnique_phone_first (store : List Registrant) (e p : String)
    (hp : ∃ r ∈ store, r.phone = p) (he : ∀ r ∈ store, r.email ≠ e) :
    isEmailOrPhoneUnique store e p = some "phone" := by
  induction store with
  | nil => simp at hp
  | cons u rest ih =>
    have h1 : u.email ≠ e := he u (List.mem_cons_self u rest)
    by_cases h2 : u.phone = p
    · simp [isEmailOrPhoneUnique, h1, h2]
    · rcases hp with ⟨r, hr, hrp⟩
      rcases List.mem_cons.mp hr with rfl | hr
      · exact absurd hrp h2
      · simp only [isEmailOrPhoneUnique, if_neg h1, if_neg h2]
        exact ih ⟨r, hr, hrp⟩ (fun s hs => he s (List.mem_cons_of_mem u hs))

theorem onSubmit_store_cases (data : FormData) (store : List Registrant)
    (writeOk : Bool) (now : String) (ui : UIState) :
    (onSubmit data store writeOk now ui).2 = store ∨
      ((onSubmit data store writeOk now ui).2 =
          store ++ [mkRegistration data store now] ∧
        isEmailOrPhoneUnique store data.email data.phone = none ∧
        data.phone.length = 10) := by
  unfold onSubmit
  by_cases hlen : data.phone.length ≠ 10
  · simp [hlen]
  · simp only [hlen, if_false, ite_false, if_neg hlen]
    rcases hu : isEmailOrPhoneUnique store data.email data.phone with _ | f
    · cases writeOk with
      | false => simp
      | true => exact Or.inr ⟨rfl, rfl, by omega⟩
    · simp

theorem submit_store_cases (data : FormData) (store : List Registrant)
    (writeOk : Bool) (now : String) (ui : UIState) :
    (submit data store writeOk now ui).2 = store ∨
      ((submit data store writeOk now ui).2 =
          store ++ [mkRegistration data store now] ∧
        isEmailOrPhoneUnique store data.email data.phone = none) := by
  unfold submit
  by_cases hv : hasFormErrors data
  · simp [hv]
  · simp only [hv, if_false, ite_false, Bool.false_eq_true]
    rcases onSubmit_store_cases data store writeOk now
        { ui with firstNameError := none, emailError := none,
                  phoneError := none } with h | ⟨h, hu, _⟩
    · simp [hv, h]
    · simp [hv, h, hu]

theorem formValidate_phone_isSome (data : FormData)
    (h : data.phone.length ≠ 10) : (formValidate data).2.2.isSome = true := by
  unfold formValidate
  by_cases h0 : data.phone = ""
  · simp [h0]
  · have hpat : phonePatternOk data.phone = false := by
      unfold phonePatternOk
      simp [h]
    simp [h0, hpat]

theorem formValidate_email_isSome (data : FormData)
    (h : '@' ∉ data.email.toList) : (formValidate data).2.1.isSome = true := by
  unfold formValidate
  by_cases h0 : data.email = ""
  · simp [h0]
  · have hpat : emailPatternOk data.email = false := by
      unfold emailPatternOk
      have hm : '@' ∉ (data.email.toList.drop 1).dropLast := fun hc =>
        h (List.drop_subset 1 data.email.toList (List.dropLast_subset _ hc))
      rw [List.drop_one] at hm
      simp only [emailPatternOk, Bool.and_eq_false_iff]
      right
      simpa using hm
    simp [h0, hpat]

theorem phone_length_of_valid (data : FormData)
    (hv : hasFormErrors data = false) : data.phone.length = 10 := by
  by_contra h
  have := formValidate_phone_isSome data h
  unfold hasFormErrors at hv
  simp [this] at hv

/-- Claim C1: submitting the input (firstName A, lastName B, gender female,
email a@b.com, phone 1234567890) against an empty store succeeds: the store
becomes exactly one record with price 499, pass number HOLI-20251 and
payment status unpaid, and the dialog surfaces the pass number and email. -/
theorem submit_empty_store_end_to_end :
    (submit (collectFormData exInput) [] true "2025-03-11T00:00:00.000Z"
        {}).1.showDialog = true ∧
    (submit (collectFormData exInput) [] true "2025-03-11T00:00:00.000Z"
        {}).1.passNumber = "HOLI-20251" ∧
    (submit (collectFormData exInput) [] true "2025-03-11T00:00:00.000Z"
        {}).1.email = "a@b.com" ∧
    (submit (collectFormData exInput) [] true "2025-03-11T00:00:00.000Z"
        {}).2 =
      [⟨"A", "", "a@b.com", "1234567890", "female", 499, "HOLI-20251",
        "unpaid", "2025-03-11T00:00:00.000Z"⟩] := by
  decide

/-- Claim C2: for every store state, generatePassNumber returns the string
HOLI-2025 concatenated with the decimal rendering of the record count plus
one; on an empty store it returns HOLI-20251. -/
theorem generatePassNumber_eq :
    (∀ store : List Registrant,
      generatePassNumber store = "HOLI-2025" ++ toString (store.length + 1)) ∧
    generatePassNumber [] = "HOLI-20251" := by
  constructor
  · intro store
    cases store <;> simp [generatePassNumber]
  · decide

/-- Claim C3 counterexample: against a store of three records, a successful
submission is assigned the pass number HOLI-20254, not HOLI-2025-4 as the
claim states (the code puts no separator before the count). -/
theorem pass_number_three_records_cex :
    exStore3.length = 3 ∧
    (submit exFresh exStore3 true "T" {}).1.showDialog = true ∧
    (submit exFresh exStore3 true "T" {}).2 =
      exStore3 ++ [mkRegistration exFresh exStore3 "T"] ∧
    (mkRegistration exFresh exStore3 "T").passNumber = "HOLI-20254" ∧
    (mkRegistration exFresh exStore3 "T").passNumber ≠ "HOLI-2025-4" := by
  decide

/-- Claim C3 amended: given a store with exactly 3 existing records, a new
successful submission is assigned the pass number HOLI-20254 (count plus
one appended directly to the HOLI-2025 prefix, with no separator). -/
theorem pass_number_three_records (data : FormData) (store : List Registrant)
    (writeOk : Bool) (now : String) (ui : UIState) (r : Registrant)
    (h3 : store.length = 3)
    (hs : (submit data store writeOk now ui).2 = store ++ [r]) :
    r.passNumber = "HOLI-20254" := by
  rcases submit_store_cases data store writeOk now ui with h | ⟨h, _⟩
  · rw [h] at hs
    exact absurd hs (by simp)
  · rw [h] at hs
    have hr : r = mkRegistration data store now := by
      have := List.append_cancel_left hs.symm
      simpa using this
    subst hr
    have hne : store.isEmpty = false := by
      cases store with
      | nil => simp at h3
      | cons a l => simp
    simp only [mkRegistration, generatePassNumber, hne, h3]
    decide

/-- Claim C3 witness: the amended claim at a concrete store of three
records. -/
theorem pass_number_three_records_witness :
    (exStore3.length = 3 ∧
      (submit exFresh exStore3 true "T" {}).2 =
        exStore3 ++ [mkRegistration exFresh exStore3 "T"]) ∧
    (mkRegistration exFresh exStore3 "T").passNumber = "HOLI-20254" :=
  ⟨⟨by decide, by decide⟩,
    pass_number_three_records exFresh exStore3 true "T" {}
      (mkRegistration exFresh exStore3 "T") (by decide) (by decide)⟩

/-- Claim C4 counterexample: the input duplicates the email of the stored
record exRec2, yet the submission reports the phone field, not the email
field, because the scan first hits the phone of the earlier record exRec1;
the store is unchanged. -/
theorem duplicate_field_report_cex :
    exRec2 ∈ [exRec1, exRec2] ∧
    exRec2.email = exBothDup.email ∧
    exBothDup.phone.length = 10 ∧
    (onSubmit exBothDup [exRec1, exRec2] true "T" {}).1.emailError = none ∧
    (onSubmit exBothDup [exRec1, exRec2] true "T" {}).1.phoneError =
      some (dupMessage "phone") ∧
    (onSubmit exBothDup [exRec1, exRec2] true "T" {}).2 = [exRec1, exRec2] := by
  decide

/-- Claim C4 amended: for every store and every input with a ten-character
phone, if the email duplicates some record and the phone duplicates none,
the submission fails identifying the email field; if the phone duplicates
some record and the email duplicates none, it fails identifying the phone
field; and whenever either field is duplicated the submission fails with a
duplicate error on email or phone (the field of the first match in scan
order, email checked before phone within each record) and no new record is
appended. -/
theorem duplicate_field_report (data : FormData) (store : List Registrant)
    (writeOk : Bool) (now : String) (ui : UIState)
    (hlen : data.phone.length = 10) :
    ((∃ r ∈ store, r.email = data.email) →
      (∀ r ∈ store, r.phone ≠ data.phone) →
      (onSubmit data store writeOk now ui).1.emailError =
          some (dupMessage "email") ∧
        (onSubmit data store writeOk now ui).2 = store) ∧
    ((∃ r ∈ store, r.phone = data.phone) →
      (∀ r ∈ store, r.email ≠ data.email) →
      (onSubmit data store writeOk now ui).1.phoneError =
          some (dupMessage "phone") ∧
        (onSubmit data store writeOk now ui).2 = store) ∧
    ((∃ r ∈ store, r.email = data.email ∨ r.phone = data.phone) →
      (onSubmit data store writeOk now ui).2 = store ∧
        ((onSubmit data store writeOk now ui).1.emailError =
            some (dupMessage "email") ∨
          (onSubmit data store writeOk now ui).1.phoneError =
            some (dupMessage "phone"))) := by
  refine ⟨?_, ?_, ?_⟩
  · intro he hp
    have hu := isUnique_email_first store data.email data.phone he hp
    simp [onSubmit, hlen, hu]
  · intro hp he
    have hu := isUnique_phone_first store data.email data.phone hp he
    simp [onSubmit, hlen, hu]
  · intro hdup
    rcases hu : isEmailOrPhoneUnique store data.email data.phone with _ | f
    · exfalso
      rcases hdup with ⟨r, hr, hor⟩
      have := (isUnique_none_iff store data.email data.phone).mp hu r hr
      rcases hor with h | h
      · exact this.1 h
      · exact this.2 h
    · rcases isUnique_some_cases store data.email data.phone f hu with rfl | rfl
      · constructor
        · simp [onSubmit, hlen, hu]
        · left
          simp [onSubmit, hlen, hu]
      · constructor
        · simp [onSubmit, hlen, hu]
        · right
          simp [onSubmit, hlen, hu]

/-- Claim C4 witness: the amended claim at concrete single-record stores,
one duplicating only the email, one duplicating only the phone. -/
theorem duplicate_field_report_witness :
    (exBothDup.phone.length = 10 ∧
      ((onSubmit exBothDup [exRec2] true "T" {}).1.emailError =
          some (dupMessage "email") ∧
        (onSubmit exBothDup [exRec2] true "T" {}).2 = [exRec2])) ∧
    ((onSubmit exBothDup [exRec1] true "T" {}).1.phoneError =
        some (dupMessage "phone") ∧
      (onSubmit exBothDup [exRec1] true "T" {}).2 = [exRec1]) :=
  ⟨⟨by decide,
    (duplicate_field_report exBothDup [exRec2] true "T" {} (by decide)).1
      (by decide) (by decide)⟩,
    (duplicate_field_report exBothDup [exRec1] true "T" {} (by decide)).2.1
      (by decide) (by decide)⟩

/-- Claim C5: a phone whose length is not 10 is rejected with a
phone-specific error, and an email containing no @ is rejected with an
email-specific error; in both cases the store is untouched. -/
theorem validation_rejects_bad_phone_and_email (data : FormData)
    (store : List Registrant) (writeOk : Bool) (now : String) (ui : UIState) :
    (data.phone.length ≠ 10 →
      (submit data store writeOk now ui).2 = store ∧
        (submit data store writeOk now ui).1.phoneError.isSome = true) ∧
    ('@' ∉ data.email.toList →
      (submit data store writeOk now ui).2 = store ∧
        (submit data store writeOk now ui).1.emailError.isSome = true) := by
  constructor
  · intro h
    have hp := formValidate_phone_isSome data h
    have hv : hasFormErrors data = true := by
      unfold hasFormErrors
      simp [hp]
    simp [submit, hv, hp]
  · intro h
    have he := formValidate_email_isSome data h
    have hv : hasFormErrors data = true := by
      unfold hasFormErrors
      simp [he]
    simp [submit, hv, he]

/-- Claim C5 witness: both rejections at a concrete input with a
3-character phone and an email with no @. -/
theorem validation_rejects_bad_phone_and_email_witness :
    (exBadData.phone.length ≠ 10 ∧
      ((submit exBadData [] true "T" {}).2 = [] ∧
        (submit exBadData [] true "T" {}).1.phoneError.isSome = true)) ∧
    ('@' ∉ exBadData.email.toList ∧
      ((submit exBadData [] true "T" {}).2 = [] ∧
        (submit exBadData [] true "T" {}).1.emailError.isSome = true)) :=
  ⟨⟨by decide,
    (validation_rejects_bad_phone_and_email exBadData [] true "T" {}).1
      (by decide)⟩,
    ⟨by decide,
      (validation_rejects_bad_phone_and_email exBadData [] true "T" {}).2
        (by decide)⟩⟩

/-- Claim C6: the computed price is 599 for gender male, 499 for female and
0 when unset, and any record persisted from the form carries exactly the
price computed from its gender. -/
theorem price_by_gender (data : FormData) (store : List Registrant)
    (writeOk : Bool) (now : String) (ui : UIState) :
    price "male" = 599 ∧ price "female" = 499 ∧ price "" = 0 ∧
    ((submit data store writeOk now ui).2 = store ∨
      ((submit data store writeOk now ui).2 =
          store ++ [mkRegistration data store now] ∧
        (mkRegistration data store now).price = price data.gender)) := by
  refine ⟨by decide, by decide, by decide, ?_⟩
  rcases submit_store_cases data store writeOk now ui with h | ⟨h, _⟩
  · exact Or.inl h
  · exact Or.inr ⟨h, rfl⟩

/-- Claim C7: when the single store write fails, the submission surfaces the
generic banner, the success dialog is not shown, the store is exactly what
it was before, and the form is no longer loading so the user may resubmit. -/
theorem persist_failure_banner (data : FormData) (store : List Registrant)
    (now : String) (ui : UIState)
    (hd : ui.showDialog = false)
    (hv : hasFormErrors data = false)
    (hu : isEmailOrPhoneUnique store data.email data.phone = none) :
    (submit data store false now ui).2 = store ∧
    (submit data store false now ui).1.globalError =
      some "Error: Something went wrong. Please try again." ∧
    (submit data store false now ui).1.showDialog = false ∧
    (submit data store false now ui).1.isLoading = false := by
  have hlen := phone_length_of_valid data hv
  simp [submit, onSubmit, hv, hlen, hu, hd]

/-- Claim C7 witness: the failed-write outcome at the concrete end-to-end
input against an empty store. -/
theorem persist_failure_banner_witness :
    (({} : UIState).showDialog = false ∧
      hasFormErrors (collectFormData exInput) = false ∧
      isEmailOrPhoneUnique [] (collectFormData exInput).email
        (collectFormData exInput).phone = none) ∧
    ((submit (collectFormData exInput) [] false "T" {}).2 = [] ∧
      (submit (collectFormData exInput) [] false "T" {}).1.globalError =
        some "Error: Something went wrong. Please try again." ∧
      (submit (collectFormData exInput) [] false "T" {}).1.showDialog = false ∧
      (submit (collectFormData exInput) [] false "T" {}).1.isLoading = false) :=
  ⟨⟨by decide, by decide, by decide⟩,
    persist_failure_banner (collectFormData exInput) [] "T" {}
      (by decide) (by decide) (by decide)⟩

/-- Claim C8: every submission preserves pairwise-distinct emails and phones
across the store, touches the store only by leaving it alone or appending
the single new record, and any record it appends has payment status unpaid
at creation. -/
theorem workflow_preserves_invariant (data : FormData)
    (store : List Registrant) (writeOk : Bool) (now : String) (ui : UIState)
    (hinv : storeInvariant store) :
    storeInvariant (submit data store writeOk now ui).2 ∧
    ((submit data store writeOk now ui).2 = store ∨
      (submit data store writeOk now ui).2 =
        store ++ [mkRegistration data store now]) ∧
    (∀ r ∈ (submit data store writeOk now ui).2,
      r ∈ store ∨ r.paymentStatus = "unpaid") := by
  rcases submit_store_cases data store writeOk now ui with h | ⟨h, hu⟩
  · rw [h]
    exact ⟨hinv, Or.inl rfl, fun r hr => Or.inl hr⟩
  · rw [h]
    have hdist := (isUnique_none_iff store data.email data.phone).mp hu
    refine ⟨?_, Or.inr rfl, ?_⟩
    · unfold storeInvariant at hinv ⊢
      rw [List.pairwise_append]
      refine ⟨hinv, List.pairwise_singleton _ _, ?_⟩
      intro a ha b hb
      simp only [List.mem_singleton] at hb
      subst hb
      exact ⟨(hdist a ha).1, (hdist a ha).2⟩
    · intro r hr
      rcases List.mem_append.mp hr with h1 | h1
      · exact Or.inl h1
      · simp only [List.mem_singleton] at h1
        subst h1
        exact Or.inr rfl

/-- Claim C8 witness: the preserved invariant at a successful concrete
submission against the empty store. -/
theorem workflow_preserves_invariant_witness :
    storeInvariant [] ∧
    (storeInvariant (submit exFresh [] true "T" {}).2 ∧
      ((submit exFresh [] true "T" {}).2 = [] ∨
        (submit exFresh [] true "T" {}).2 =
          [] ++ [mkRegistration exFresh [] "T"]) ∧
      (∀ r ∈ (submit exFresh [] true "T" {}).2,
        r ∈ ([] : List Registrant) ∨ r.paymentStatus = "unpaid")) :=
  ⟨List.Pairwise.nil,
    workflow_preserves_invariant exFresh [] true "T" {} List.Pairwise.nil⟩

/-- Claim C9: whatever the user types into the last-name input, any record a
submission persists has lastName equal to the empty string, because that
input is never registered with the form state and the default value is what
gets submitted. -/
theorem lastName_always_empty (t : TypedInput) (store : List Registrant)
    (writeOk : Bool) (now : String) (ui : UIState) (r : Registrant)
    (hr : r ∈ (submit (collectFormData t) store writeOk now ui).2) :
    r ∈ store ∨ r.lastName = "" := by
  rcases submit_store_cases (collectFormData t) store writeOk now ui with
    h | ⟨h, _⟩
  · rw [h] at hr
    exact Or.inl hr
  · rw [h] at hr
    rcases List.mem_append.mp hr with h1 | h1
    · exact Or.inl h1
    · simp only [List.mem_singleton] at h1
      subst h1
      exact Or.inr rfl

/-- Claim C9 witness: the record persisted for a typed last name B has an
empty lastName. -/
theorem lastName_always_empty_witness :
    mkRegistration (collectFormData exInput) [] "T" ∈
      (submit (collectFormData exInput) [] true "T" {}).2 ∧
    (mkRegistration (collectFormData exInput) [] "T" ∈ ([] : List Registrant) ∨
      (mkRegistration (collectFormData exInput) [] "T").lastName = "") :=
  ⟨by decide,
    lastName_always_empty exInput [] true "T" {}
      (mkRegistration (collectFormData exInput) [] "T") (by decide)⟩

/-- Claim C10 counterexample: in a store where an earlier record shares the
phone, an input duplicating both the email and the phone of the same record
(exRecSharedPhone) is reported as a phone duplicate, not an email
duplicate. -/
theorem same_record_duplicate_cex :
    exRecSharedPhone ∈ exStoreSharedPhone ∧
    exRecSharedPhone.email = "a@b.com" ∧
    exRecSharedPhone.phone = "1234567890" ∧
    isEmailOrPhoneUnique exStoreSharedPhone "a@b.com" "1234567890" =
      some "phone" ∧
    isEmailOrPhoneUnique exStoreSharedPhone "a@b.com" "1234567890" ≠
      some "email" := by
  decide

/-- Claim C10 amended: provided no two stored records share a phone (part of
the maintained invariant), an input duplicating both the email and the
phone of the same existing record is reported as an email duplicate,
because each record is tested for an email match before a phone match and
the scan returns at the first match. -/
theorem same_record_duplicate_reports_email (store : List Registrant)
    (e p : String) (r : Registrant)
    (hpw : store.Pairwise (fun a b => a.phone ≠ b.phone))
    (hr : r ∈ store) (he : r.email = e) (hp : r.phone = p) :
    isEmailOrPhoneUnique store e p = some "email" := by
  induction store with
  | nil => simp at hr
  | cons u rest ih =>
    rw [List.pairwise_cons] at hpw
    by_cases h1 : u.email = e
    · simp [isEmailOrPhoneUnique, h1]
    · rcases List.mem_cons.mp hr with rfl | hr2
      · exact absurd he h1
      · have h2 : u.phone ≠ p := by
          rw [← hp]
          exact hpw.1 r hr2
        simp only [isEmailOrPhoneUnique, if_neg h1, if_neg h2]
        exact ih hpw.2 hr2

/-- Claim C10 witness: the amended claim at a concrete two-record store with
distinct phones, duplicating both fields of the second record. -/
theorem same_record_duplicate_reports_email_witness :
    ([exRec1, exRec2].Pairwise (fun a b => a.phone ≠ b.phone) ∧
      exRec2 ∈ [exRec1, exRec2] ∧
      exRec2.email = "a@b.com" ∧ exRec2.phone = "0000000000") ∧
    isEmailOrPhoneUnique [exRec1, exRec2] "a@b.com" "0000000000" =
      some "email" :=
  ⟨⟨by decide, by decide, by decide, by decide⟩,
    same_record_duplicate_reports_email [exRec1, exRec2] "a@b.com"
      "0000000000" exRec2 (by decide) (by decide) (by decide) (by decide)⟩

end Holi
